import Mathlib

/- Shallow embedding of the multi-process coordination layer of the
repository: the extension-host child process supervisor
(src/vs/workbench/services/thread/electron-browser/threadService.ts,
class ExtensionHostProcessManager) and the local terminal backend
(src/vs/workbench/contrib/terminal/electron-sandbox/localTerminalBackend.ts,
class LocalTerminalBackend). Each definition transcribes one function or
listener of the source; the theorems at the end settle the specification
claims against those definitions. -/

/- Part 1: ExtensionHostProcessManager (threadService.ts). -/

/-- Messages arriving from the child process, as discriminated by
ExtensionHostProcessManager.onMessaage: the string sentinel ready, the string
sentinel initialized, an object whose type field is the console logging
sentinel, or any other payload. -/
inductive ChildMsg where
  | ready : ChildMsg
  | initialized : ChildMsg
  | console (severity : String) (args : String) : ChildMsg
  | other (payload : Nat) : ChildMsg
deriving DecidableEq

/-- Payloads the supervisor writes to the child process handle via send: the
handshake initialization payload, an application message, or the terminate
sentinel. -/
inductive ChildBound where
  | initPayload : ChildBound
  | app (m : Nat) : ChildBound
  | terminateMsg : ChildBound
deriving DecidableEq

/-- User-facing notifications shown through the message service. -/
inductive Notif where
  | startupWarn : Notif
  | crashWithReload : Notif
  | hostError (text : String) : Notif
deriving DecidableEq

/-- State of one ExtensionHostProcessManager. The field started records that
startExtensionHostProcess ran (so the fork handle and the
initializeExtensionHostProcess promise exist); promiseResolved records that the
promise completed (which happens when onMessaage returns true on the
initialized sentinel); doneQueue holds the payloads of the pending
promise done-callbacks registered by postMessage while initializing, in
registration order; sentToChild is the ordered list of payloads passed to the
child process handle send; delivered is the ordered list of messages passed to
the onExtensionHostMessage application callback. -/
structure ManagerState where
  started : Bool
  promiseResolved : Bool
  extensionHostProcessReady : Bool
  unsentMessages : List Nat
  doneQueue : List Nat
  sentToChild : List ChildBound
  delivered : List ChildMsg
  terminating : Bool
  lastExtensionHostError : Option String
  notifications : List Notif
  isExtensionDevelopmentHost : Bool
  isExtensionDevelopmentTestFromCli : Bool
  windowClosed : Bool
  ipcExitCodes : List Int
  consoleLogged : List (String × String)
deriving DecidableEq

/-- State after the constructor of ExtensionHostProcessManager: empty unsent
queue, not ready, nothing sent, development-mode flags as configured. -/
def initState (devHost testFromCli : Bool) : ManagerState :=
  { started := false
    promiseResolved := false
    extensionHostProcessReady := false
    unsentMessages := []
    doneQueue := []
    sentToChild := []
    delivered := []
    terminating := false
    lastExtensionHostError := none
    notifications := []
    isExtensionDevelopmentHost := devHost
    isExtensionDevelopmentTestFromCli := testFromCli
    windowClosed := false
    ipcExitCodes := []
    consoleLogged := [] }

/-- ExtensionHostProcessManager.postMessage: if the host signalled
initialized, send directly; otherwise, if the initialization promise exists,
register a done-callback that sends on completion (a callback registered on an
already-completed promise fires at once); otherwise push onto unsentMessages. -/
def postMessage (s : ManagerState) (m : Nat) : ManagerState :=
  if s.extensionHostProcessReady then
    { s with sentToChild := s.sentToChild ++ [ChildBound.app m] }
  else if s.started then
    if s.promiseResolved then
      { s with sentToChild := s.sentToChild ++ [ChildBound.app m] }
    else
      { s with doneQueue := s.doneQueue ++ [m] }
  else
    { s with unsentMessages := s.unsentMessages ++ [m] }

/-- ExtensionHostProcessManager.initializeExtensionHost: clears the startup
timer and sends the stringified initialization payload to the child. -/
def initializeExtensionHost (s : ManagerState) : ManagerState :=
  { s with sentToChild := s.sentToChild ++ [ChildBound.initPayload] }

/-- Completion of the initializeExtensionHostProcess promise: every pending
done-callback registered by postMessage fires in registration order, sending
its captured message to the child. -/
def resolveInitPromise (s : ManagerState) : ManagerState :=
  { s with promiseResolved := true
           sentToChild := s.sentToChild ++ s.doneQueue.map ChildBound.app
           doneQueue := [] }

/-- ExtensionHostProcessManager.onMessaage: on the ready sentinel run
initializeExtensionHost; on the initialized sentinel re-post every unsent
message, clear the queue, mark ready and return true, which makes the message
listener complete the initialization promise; console log entries go to the
logging sink; every other message goes to the onExtensionHostMessage
callback. -/
def onMessaage (s : ManagerState) (msg : ChildMsg) : ManagerState :=
  match msg with
  | ChildMsg.ready => initializeExtensionHost s
  | ChildMsg.initialized =>
      let s1 := s.unsentMessages.foldl postMessage s
      let s2 := { s1 with unsentMessages := [], extensionHostProcessReady := true }
      resolveInitPromise s2
  | ChildMsg.console severity args =>
      { s with consoleLogged := s.consoleLogged ++ [(severity, args)] }
  | ChildMsg.other _ => { s with delivered := s.delivered ++ [msg] }

/-- ExtensionHostProcessManager.onError: suppress the notification when the
error text equals the last reported one, otherwise record it and show an
error notification. -/
def onError (s : ManagerState) (errText : String) : ManagerState :=
  if s.lastExtensionHostError = some errText then s
  else
    { s with lastExtensionHostError := some errText
             notifications := s.notifications ++ [Notif.hostError errText] }

/-- ExtensionHostProcessManager.onExit: when not terminating, a
non-development host shows the crash notification with a reload action, a
development host closes the window, and a CLI test run forwards the exit
code over ipc. -/
def onExit (s : ManagerState) (code : Int) : ManagerState :=
  if s.terminating then s
  else if !s.isExtensionDevelopmentHost then
    { s with notifications := s.notifications ++ [Notif.crashWithReload] }
  else if !s.isExtensionDevelopmentTestFromCli then
    { s with windowClosed := true }
  else
    { s with ipcExitCodes := s.ipcExitCodes ++ [code] }

/-- ExtensionHostProcessManager.terminate: mark terminating and, when the
process handle exists, send the terminate sentinel. -/
def terminate (s : ManagerState) : ManagerState :=
  if s.started then
    { s with terminating := true
             sentToChild := s.sentToChild ++ [ChildBound.terminateMsg] }
  else
    { s with terminating := true }

/-- External events driving one ExtensionHostProcessManager: the
startExtensionHostProcess call, a postMessage call, a message from the child,
a process exit event, a process error event, and a terminate call. -/
inductive SupEvent where
  | start : SupEvent
  | post (m : Nat) : SupEvent
  | recv (msg : ChildMsg) : SupEvent
  | exitEv (code : Int) : SupEvent
  | errorEv (text : String) : SupEvent
  | terminateEv : SupEvent
deriving DecidableEq

/-- One step of the supervisor: child-process events can only arrive once the
process was started (the listeners are attached inside
doInitializeExtensionHostProcess). -/
def supStep (s : ManagerState) (e : SupEvent) : ManagerState :=
  match e with
  | SupEvent.start => { s with started := true }
  | SupEvent.post m => postMessage s m
  | SupEvent.recv msg => if s.started then onMessaage s msg else s
  | SupEvent.exitEv code => if s.started then onExit s code else s
  | SupEvent.errorEv t => if s.started then onError s t else s
  | SupEvent.terminateEv => terminate s

/-- Run the supervisor over a sequence of events. -/
def supRun (s : ManagerState) (es : List SupEvent) : ManagerState :=
  es.foldl supStep s

/-- Event list posting each message of a list in order. -/
def posts (ms : List Nat) : List SupEvent :=
  ms.map SupEvent.post

/-- Application payload of a child-bound send, none for the handshake and
terminate sentinels. -/
def appPayload : ChildBound → Option Nat
  | ChildBound.app m => some m
  | _ => none

/-- The application messages the child process received, in order. -/
def sentApps (s : ManagerState) : List Nat :=
  s.sentToChild.filterMap appPayload

theorem supRun_append (s : ManagerState) (es1 es2 : List SupEvent) :
    supRun s (es1 ++ es2) = supRun (supRun s es1) es2 := by
  simp [supRun, List.foldl_append]

theorem supRun_posts (ms : List Nat) (s : ManagerState) :
    supRun s (posts ms) = ms.foldl postMessage s := by
  induction ms generalizing s with
  | nil => simp [supRun, posts]
  | cons m rest ih =>
      simp [supRun, posts, supStep] at ih ⊢
      exact ih (postMessage s m)

theorem foldl_postMessage_unsent (ms : List Nat) (s : ManagerState)
    (hready : s.extensionHostProcessReady = false) (hstart : s.started = false) :
    ms.foldl postMessage s = { s with unsentMessages := s.unsentMessages ++ ms } := by
  induction ms generalizing s with
  | nil => simp
  | cons m rest ih =>
      have hpost : postMessage s m = { s with unsentMessages := s.unsentMessages ++ [m] } := by
        simp [postMessage, hready, hstart]
      rw [List.foldl_cons, hpost, ih _ (by simp [hready]) (by simp [hstart])]
      simp

theorem foldl_postMessage_queue (ms : List Nat) (s : ManagerState)
    (hready : s.extensionHostProcessReady = false) (hstart : s.started = true)
    (hres : s.promiseResolved = false) :
    ms.foldl postMessage s = { s with doneQueue := s.doneQueue ++ ms } := by
  induction ms generalizing s with
  | nil => simp
  | cons m rest ih =>
      have hpost : postMessage s m = { s with doneQueue := s.doneQueue ++ [m] } := by
        simp [postMessage, hready, hstart, hres]
      rw [List.foldl_cons, hpost, ih _ (by simp [hready]) (by simp [hstart]) (by simp [hres])]
      simp

theorem sentApps_app_map (t : List ChildBound) (l : List Nat) :
    List.filterMap appPayload (t ++ l.map ChildBound.app)
      = List.filterMap appPayload t ++ l := by
  rw [List.filterMap_append]
  congr 1
  induction l with
  | nil => simp
  | cons x xs ih => simp [List.map_cons, List.filterMap_cons, appPayload, ih]

/-- Intermediate supervisor state reached while driving the handshake: the
development flags, the started flag, the two queues and the child-bound sends
vary, everything else still has its constructor value. -/
def stagedState (devHost testFromCli st : Bool) (u q : List Nat)
    (t : List ChildBound) : ManagerState :=
  { started := st
    promiseResolved := false
    extensionHostProcessReady := false
    unsentMessages := u
    doneQueue := q
    sentToChild := t
    delivered := []
    terminating := false
    lastExtensionHostError := none
    notifications := []
    isExtensionDevelopmentHost := devHost
    isExtensionDevelopmentTestFromCli := testFromCli
    windowClosed := false
    ipcExitCodes := []
    consoleLogged := [] }

theorem onMessaage_initialized (s : ManagerState)
    (hready : s.extensionHostProcessReady = false) (hstart : s.started = true)
    (hres : s.promiseResolved = false) :
    onMessaage s ChildMsg.initialized
      = { s with unsentMessages := []
                 extensionHostProcessReady := true
                 promiseResolved := true
                 doneQueue := []
                 sentToChild := s.sentToChild
                   ++ (s.doneQueue ++ s.unsentMessages).map ChildBound.app } := by
  simp only [onMessaage]
  rw [foldl_postMessage_queue s.unsentMessages s hready hstart hres]
  simp [resolveInitPromise, List.append_assoc]

/-- Claim C1, amended. The claim as stated fails when postMessage calls from
before startExtensionHostProcess mix with later ones (see the
counterexample); the amended statement holds: messages posted between
startExtensionHostProcess and the initialized sentinel reach the child
exactly once each, in submission order, and none is sent before the
initialized sentinel arrives; messages posted before
startExtensionHostProcess are also delivered exactly once after the
handshake, but only after the whole post-start batch. -/
theorem c1_prehandshake_delivery (devHost testFromCli : Bool) (pre mid : List Nat) :
    sentApps (supRun (initState devHost testFromCli)
      (posts pre ++ [SupEvent.start] ++ posts mid ++ [SupEvent.recv ChildMsg.ready])) = []
    ∧ sentApps (supRun (initState devHost testFromCli)
      (posts pre ++ [SupEvent.start] ++ posts mid
        ++ [SupEvent.recv ChildMsg.ready, SupEvent.recv ChildMsg.initialized]))
      = mid ++ pre := by
  have hA : supRun (initState devHost testFromCli) (posts pre)
      = stagedState devHost testFromCli false pre [] [] := by
    rw [supRun_posts, foldl_postMessage_unsent pre _ rfl rfl]
    simp [initState, stagedState]
  have hB : supRun (initState devHost testFromCli) (posts pre ++ [SupEvent.start])
      = stagedState devHost testFromCli true pre [] [] := by
    rw [supRun_append, hA]
    rfl
  have hC : supRun (initState devHost testFromCli)
        (posts pre ++ [SupEvent.start] ++ posts mid)
      = stagedState devHost testFromCli true pre mid [] := by
    rw [supRun_append, hB, supRun_posts, foldl_postMessage_queue mid _ rfl rfl rfl]
    simp [stagedState]
  have hD : supRun (initState devHost testFromCli)
        (posts pre ++ [SupEvent.start] ++ posts mid ++ [SupEvent.recv ChildMsg.ready])
      = stagedState devHost testFromCli true pre mid [ChildBound.initPayload] := by
    rw [supRun_append, hC]
    simp [supRun, supStep, onMessaage, initializeExtensionHost, stagedState]
  constructor
  · rw [hD]
    simp [sentApps, appPayload, stagedState]
  · have hsplit : posts pre ++ [SupEvent.start] ++ posts mid
        ++ [SupEvent.recv ChildMsg.ready, SupEvent.recv ChildMsg.initialized]
        = (posts pre ++ [SupEvent.start] ++ posts mid ++ [SupEvent.recv ChildMsg.ready])
          ++ [SupEvent.recv ChildMsg.initialized] := by
      simp
    rw [hsplit, supRun_append, hD]
    have hE := onMessaage_initialized
      (stagedState devHost testFromCli true pre mid [ChildBound.initPayload]) rfl rfl rfl
    have hstep : supRun (stagedState devHost testFromCli true pre mid [ChildBound.initPayload])
          [SupEvent.recv ChildMsg.initialized]
        = onMessaage (stagedState devHost testFromCli true pre mid [ChildBound.initPayload])
            ChildMsg.initialized := by
      simp [supRun, supStep, stagedState]
    rw [hstep, hE]
    have hsent : sentApps { stagedState devHost testFromCli true pre mid [ChildBound.initPayload] with
        unsentMessages := []
        extensionHostProcessReady := true
        promiseResolved := true
        doneQueue := []
        sentToChild := (stagedState devHost testFromCli true pre mid
            [ChildBound.initPayload]).sentToChild
          ++ ((stagedState devHost testFromCli true pre mid [ChildBound.initPayload]).doneQueue
            ++ (stagedState devHost testFromCli true pre mid
              [ChildBound.initPayload]).unsentMessages).map ChildBound.app }
        = List.filterMap appPayload ([ChildBound.initPayload] ++ (mid ++ pre).map ChildBound.app) := by
      simp [sentApps, stagedState]
    rw [hsent, sentApps_app_map [ChildBound.initPayload] (mid ++ pre)]
    simp [appPayload]

/-- Claim C1, counterexample. Message 1 is posted before
startExtensionHostProcess and lands in unsentMessages; message 2 is posted
while initializing and registers a promise done-callback. On the initialized
sentinel the unsent messages are re-posted onto the promise queue behind
message 2, so the child receives 2 before 1, violating the submitted order
1 then 2. -/
theorem c1_counterexample :
    sentApps (supRun (initState false false)
      [SupEvent.post 1, SupEvent.start, SupEvent.post 2,
       SupEvent.recv ChildMsg.ready, SupEvent.recv ChildMsg.initialized]) = [2, 1]
    ∧ ([2, 1] : List Nat) ≠ [1, 2] := by
  constructor
  · rfl
  · decide

/-- Claim C3, counterexample. Two unexpected exit events (no prior terminate,
not a development host) carry the same fixed crash message, yet onExit shows
the crash notification both times: the last-reported-message deduplication of
onError does not apply to exits. -/
theorem c3_counterexample :
    (supRun (initState false false)
      [SupEvent.start, SupEvent.exitEv 1, SupEvent.exitEv 1]).notifications
      = [Notif.crashWithReload, Notif.crashWithReload] := by
  rfl

/-- Claim C3, amended. An unexpected child-process exit (no prior terminate,
outside extension-development mode) always surfaces the recoverable crash
notification offering a reload action, once per exit event with no
deduplication; the deduplication against the last reported message applies to
child-process error events, where onError suppresses an error whose text
equals the last reported one. -/
theorem c3_crash_notification (s : ManagerState) (code : Int) (t : String)
    (hstart : s.started = true) (hterm : s.terminating = false)
    (hdev : s.isExtensionDevelopmentHost = false) :
    (supStep s (SupEvent.exitEv code)).notifications
        = s.notifications ++ [Notif.crashWithReload]
    ∧ (s.lastExtensionHostError = some t → supStep s (SupEvent.errorEv t) = s)
    ∧ (s.lastExtensionHostError ≠ some t →
        (supStep s (SupEvent.errorEv t)).notifications
          = s.notifications ++ [Notif.hostError t]) := by
  refine ⟨?_, ?_, ?_⟩
  · simp [supStep, onExit, hstart, hterm, hdev]
  · intro hlast
    simp [supStep, onError, hstart, hlast]
  · intro hlast
    simp [supStep, onError, hstart, hlast]

theorem c3_crash_notification_witness :
    (supStep (supRun (initState false false) [SupEvent.start]) (SupEvent.exitEv 0)).notifications
      = (supRun (initState false false) [SupEvent.start]).notifications
        ++ [Notif.crashWithReload] := by
  have h := c3_crash_notification (supRun (initState false false) [SupEvent.start]) 0 "boom"
    (by decide) (by decide) (by decide)
  exact h.1

/-- Claim C4, counterexample. A message received before the initialized
handshake that is neither sentinel nor a console log entry is not ignored:
onMessaage falls through to the final branch and hands it to the
onExtensionHostMessage application callback. -/
theorem c4_counterexample :
    (supRun (initState false false)
      [SupEvent.start, SupEvent.recv (ChildMsg.other 42)]).delivered
      = [ChildMsg.other 42]
    ∧ ([ChildMsg.other 42] : List ChildMsg) ≠ [] := by
  constructor
  · rfl
  · decide

/-- Claim C4, amended. A message received before the initialized handshake
that is neither the ready sentinel, nor the initialized sentinel, nor a
console logging entry is forwarded to the application message callback
exactly as a post-handshake message would be, and is not surfaced as an
error notification. -/
theorem c4_prehandshake_forwarding (s : ManagerState) (p : Nat)
    (hstart : s.started = true) (hready : s.extensionHostProcessReady = false) :
    (supStep s (SupEvent.recv (ChildMsg.other p))).delivered
        = s.delivered ++ [ChildMsg.other p]
    ∧ (supStep s (SupEvent.recv (ChildMsg.other p))).notifications = s.notifications := by
  constructor
  · simp [supStep, onMessaage, hstart]
  · simp [supStep, onMessaage, hstart]

theorem c4_prehandshake_forwarding_witness :
    (supStep (supRun (initState false false) [SupEvent.start])
        (SupEvent.recv (ChildMsg.other 7))).delivered
      = (supRun (initState false false) [SupEvent.start]).delivered
        ++ [ChildMsg.other 7] := by
  have h := c4_prehandshake_forwarding (supRun (initState false false) [SupEvent.start]) 7
    (by decide) (by decide)
  exact h.1

/- Part 2: LocalTerminalBackend (localTerminalBackend.ts). -/

/-- Environment as a finite list of key and value pairs. -/
abbrev TermEnv := List (String × String)

/-- Shell launch configuration fields the backend reads during revival. -/
structure ShellLaunchConfig where
  useShellEnvironment : Bool
  strictEnv : Bool
  hideFromUser : Bool
deriving DecidableEq

/-- Modelled from the spec: terminalEnvironment.createVariableResolver is not
under src/. Per the spec a variable resolver is built from the last active
workspace root and the terminal-profile environment; the model records those
two inputs. -/
structure VariableResolver where
  lastActiveWorkspace : Option String
  profileEnv : TermEnv
deriving DecidableEq

/-- Modelled from the spec: terminalEnvironment.createVariableResolver under
the model above. -/
def createVariableResolver (ws : Option String) (profileEnv : TermEnv) :
    VariableResolver :=
  { lastActiveWorkspace := ws, profileEnv := profileEnv }

/-- Modelled from the spec: terminalEnvironment.createTerminalEnvironment is
not under src/. Per the spec it composes the shell launch config, the
platform-specific configuration overrides, the variable resolver, the product
version, the locale-detection setting and a base environment; the model
records that composition, plus whether the merged environment-variable
collection was applied on top. -/
structure ComposedEnv where
  shellLaunchConfig : ShellLaunchConfig
  configOverrides : Option TermEnv
  resolver : Option VariableResolver
  productVersion : String
  detectLocale : Bool
  baseEnv : TermEnv
  mergedCollectionApplied : Bool
deriving DecidableEq

/-- Modelled from the spec: terminalEnvironment.createTerminalEnvironment
under the model above; the merged collection is not yet applied. -/
def createTerminalEnvironment (slc : ShellLaunchConfig) (overrides : Option TermEnv)
    (resolver : Option VariableResolver) (version : String) (detectLocale : Bool)
    (base : TermEnv) : ComposedEnv :=
  { shellLaunchConfig := slc
    configOverrides := overrides
    resolver := resolver
    productVersion := version
    detectLocale := detectLocale
    baseEnv := base
    mergedCollectionApplied := false }

/-- Modelled from the spec: mergedCollection.applyToProcessEnvironment is not
under src/; the model records that the accumulated environment-variable
collection contributions were applied on top of the composed environment. -/
def applyToProcessEnvironment (e : ComposedEnv) (_resolver : Option VariableResolver) :
    ComposedEnv :=
  { e with mergedCollectionApplied := true }

/-- The environment stored in a revived processLaunchOptions: either the
captured snapshot persisted in the blob, or a freshly composed environment. -/
inductive EnvVal where
  | snapshot (e : TermEnv) : EnvVal
  | fresh (c : ComposedEnv) : EnvVal
deriving DecidableEq

/-- One entry of the persisted terminal state (ISerializedTerminalState
restricted to the fields the backend reads or writes). -/
structure SerializedTerminalState where
  shellLaunchConfig : ShellLaunchConfig
  env : EnvVal
deriving DecidableEq

/-- JSON literal values, used for the version field of the persisted blob,
compared with the strict inequality of the source. -/
inductive JLit where
  | jnull : JLit
  | jbool (b : Bool) : JLit
  | jnum (n : Int) : JLit
  | jstr (s : String) : JLit
deriving DecidableEq

/-- Outcome of reading and JSON-parsing the persisted terminal buffer state
blob, as discriminated by getTerminalLayoutInfo: the parse may throw, the
parsed value may not be an object (the in operator then throws and the
surrounding catch swallows it), or it is an object with optional version and
state fields, the state possibly not an array. -/
inductive ParsedBlob where
  | parseThrew : ParsedBlob
  | nonObject : ParsedBlob
  | object (hasVersion : Bool) (version : JLit) (hasState : Bool)
      (stateIsArray : Bool) (entries : List SerializedTerminalState) : ParsedBlob
deriving DecidableEq

/-- Persisted layout blob written by setTerminalLayoutInfo via JSON.stringify
of ISetTerminalLayoutInfoArgs. -/
structure LayoutBlob where
  workspaceId : String
  tabs : List Nat
deriving DecidableEq

/-- The two workspace-scoped storage keys the backend uses:
TerminalStorageKeys.TerminalBufferState and
TerminalStorageKeys.TerminalLayoutInfo. -/
structure Store where
  terminalBufferState : Option ParsedBlob
  terminalLayoutInfo : Option LayoutBlob
deriving DecidableEq

/-- Ambient inputs of getTerminalLayoutInfo: what the collaborating services
return (history, profile resolver, configuration, shell environment, product,
locale), whether the reviveTerminalProcesses remote call rejects, and what the
remote getTerminalLayoutInfo returns. -/
structure BackendEnv where
  lastActiveWorkspaceRoot : Option String
  profileEnv : TermEnv
  configEnvForPlatform : Option TermEnv
  shellEnv : TermEnv
  processEnv : TermEnv
  productVersion : String
  detectLocale : Bool
  locale : String
  reviveThrows : Bool
  hostLayoutResult : Option (List Nat)
deriving DecidableEq

/-- LocalTerminalBackend._resolveEnvironmentForRevive: pick the base
environment from the shell environment service or the pty host environment
according to useShellEnvironment, compose the terminal environment from the
launch config, the platform-specific config value, the resolver, the product
version and the locale-detection setting, then apply the merged
environment-variable collection unless the launch config set strictEnv or
hideFromUser. -/
def resolveEnvironmentForRevive (benv : BackendEnv) (resolver : Option VariableResolver)
    (slc : ShellLaunchConfig) : ComposedEnv :=
  let baseEnv := if slc.useShellEnvironment then benv.shellEnv else benv.processEnv
  let env := createTerminalEnvironment slc benv.configEnvForPlatform resolver
    benv.productVersion benv.detectLocale baseEnv
  if !slc.strictEnv && !slc.hideFromUser then
    applyToProcessEnvironment env resolver
  else
    env

/-- The re-resolution loop of getTerminalLayoutInfo: for each parsed entry,
replace the captured environment snapshot with a freshly resolved
environment. -/
def reviveEntries (benv : BackendEnv) (entries : List SerializedTerminalState) :
    List SerializedTerminalState :=
  entries.map fun st =>
    { st with env := EnvVal.fresh (resolveEnvironmentForRevive benv
        (some (createVariableResolver benv.lastActiveWorkspaceRoot benv.profileEnv))
        st.shellLaunchConfig) }

/-- Observable effects of one getTerminalLayoutInfo call, in order: warnings
logged, the reviveTerminalProcesses remote call, storage removals, the
setTerminalLayoutInfo remote call, and the final remote layout query. -/
inductive Eff where
  | warnWrongFormat : Eff
  | warnWrongVersion (v : JLit) : Eff
  | reviveCall (entries : List SerializedTerminalState) (locale : String) : Eff
  | removeBufferState : Eff
  | setLayoutOnHost (lb : LayoutBlob) : Eff
  | removeLayoutInfo : Eff
  | queryHostLayout : Eff
deriving DecidableEq

/-- Result of one getTerminalLayoutInfo call: the ordered effect trace, the
final storage state, and the value returned to the caller. -/
structure GTLIResult where
  trace : List Eff
  store : Store
  result : Option (List Nat)
deriving DecidableEq

/-- LocalTerminalBackend.getTerminalLayoutInfo. With no stored buffer blob the
remote host is queried directly. A parse failure or a non-object parse result
is swallowed by the catch and also falls through to the remote query. An
object missing version or state, or whose state is not an array, logs a
warning and returns undefined, leaving storage untouched; so does a version
other than 1. Otherwise the entries are re-resolved, reviveTerminalProcesses
is called with the current locale; if it rejects, the catch swallows the
rejection and the remote query still runs, with storage untouched. On success
the buffer blob is removed and, when a layout blob exists, it is sent to the
host via setTerminalLayoutInfo and then removed, before the final remote
query. -/
def getTerminalLayoutInfo (benv : BackendEnv) (store : Store) : GTLIResult :=
  match store.terminalBufferState with
  | none =>
      { trace := [Eff.queryHostLayout], store := store, result := benv.hostLayoutResult }
  | some ParsedBlob.parseThrew =>
      { trace := [Eff.queryHostLayout], store := store, result := benv.hostLayoutResult }
  | some ParsedBlob.nonObject =>
      { trace := [Eff.queryHostLayout], store := store, result := benv.hostLayoutResult }
  | some (ParsedBlob.object hasVersion version hasState stateIsArray entries) =>
      if !hasVersion || !hasState || !stateIsArray then
        { trace := [Eff.warnWrongFormat], store := store, result := none }
      else if version ≠ JLit.jnum 1 then
        { trace := [Eff.warnWrongVersion version], store := store, result := none }
      else
        let revived := reviveEntries benv entries
        if benv.reviveThrows then
          { trace := [Eff.reviveCall revived benv.locale, Eff.queryHostLayout]
            store := store
            result := benv.hostLayoutResult }
        else
          match store.terminalLayoutInfo with
          | some lb =>
              { trace := [Eff.reviveCall revived benv.locale, Eff.removeBufferState,
                  Eff.setLayoutOnHost lb, Eff.removeLayoutInfo, Eff.queryHostLayout]
                store := { terminalBufferState := none, terminalLayoutInfo := none }
                result := benv.hostLayoutResult }
          | none =>
              { trace := [Eff.reviveCall revived benv.locale, Eff.removeBufferState,
                  Eff.queryHostLayout]
                store := { terminalBufferState := none, terminalLayoutInfo := none }
                result := benv.hostLayoutResult }

/-- LocalTerminalBackend.acceptDetachInstanceReply observable outcome: whether
the warning was logged and the arguments of the remote
acceptDetachInstanceReply call, if it was made. -/
structure DetachReplyResult where
  warnLogged : Bool
  hostCall : Option (Nat × Nat)
deriving DecidableEq

/-- LocalTerminalBackend.acceptDetachInstanceReply: a missing (or zero, by
javascript falsiness) persistentProcessId logs a warning and returns without
calling the remote host; otherwise the call is forwarded. -/
def acceptDetachInstanceReply (requestId : Nat) (persistentProcessId : Option Nat) :
    DetachReplyResult :=
  match persistentProcessId with
  | none => { warnLogged := true, hostCall := none }
  | some pid =>
      if pid = 0 then { warnLogged := true, hostCall := none }
      else { warnLogged := false, hostCall := some (requestId, pid) }

/-- State of the pty host health listeners of LocalTerminalBackend:
the unresponsive flag, whether the unresponsive warning notification is
open, how many times a notification close ran, the info log, and the
event-fire counters. -/
structure HealthState where
  isPtyHostUnresponsive : Bool
  notificationOpen : Bool
  closedCount : Nat
  infoLogs : List String
  responsiveFired : Nat
  unresponsiveFired : Nat
  restartFired : Nat
deriving DecidableEq

/-- Signals received from the pty host: onPtyHostUnresponsive,
onPtyHostResponsive and onPtyHostStart. -/
inductive HostSignal where
  | unresponsive : HostSignal
  | responsive : HostSignal
  | hostStart : HostSignal
deriving DecidableEq

/-- The three pty host listeners registered in the LocalTerminalBackend
constructor. Unresponsive: prompt the warning notification, set the flag,
fire. HostStart: log, fire the restart event, close any open notification,
clear the flag. Responsive: return early when the flag is not set; otherwise
log, close any open notification, clear the flag and fire. -/
def healthStep (s : HealthState) : HostSignal → HealthState
  | HostSignal.unresponsive =>
      { s with notificationOpen := true
               isPtyHostUnresponsive := true
               unresponsiveFired := s.unresponsiveFired + 1 }
  | HostSignal.hostStart =>
      { s with infoLogs := s.infoLogs ++ ["ptyHost restarted"]
               restartFired := s.restartFired + 1
               closedCount := s.closedCount + (if s.notificationOpen then 1 else 0)
               notificationOpen := false
               isPtyHostUnresponsive := false }
  | HostSignal.responsive =>
      if !s.isPtyHostUnresponsive then s
      else
        { s with infoLogs := s.infoLogs ++ ["The pty host became responsive again"]
                 closedCount := s.closedCount + (if s.notificationOpen then 1 else 0)
                 notificationOpen := false
                 isPtyHostUnresponsive := false
                 responsiveFired := s.responsiveFired + 1 }

/-- Remote pty host events carrying a session id, as wired in the
LocalTerminalBackend constructor. -/
inductive PtyEvent where
  | data (id : Nat) (payload : String) : PtyEvent
  | propertyChange (id : Nat) (property : String) : PtyEvent
  | exit (id : Nat) (code : Nat) : PtyEvent
  | ready (id : Nat) (payload : String) : PtyEvent
  | replay (id : Nat) (payload : String) : PtyEvent
  | orphanQuestion (id : Nat) : PtyEvent
deriving DecidableEq

/-- The session id an event carries. -/
def eventId : PtyEvent → Nat
  | PtyEvent.data id _ => id
  | PtyEvent.propertyChange id _ => id
  | PtyEvent.exit id _ => id
  | PtyEvent.ready id _ => id
  | PtyEvent.replay id _ => id
  | PtyEvent.orphanQuestion id => id

/-- Calls made on a LocalPty handle, identified by the handle value. -/
inductive PtyEffect where
  | handleData (h : Nat) (payload : String) : PtyEffect
  | handleDidChangeProperty (h : Nat) (property : String) : PtyEffect
  | handleExit (h : Nat) (code : Nat) : PtyEffect
  | handleReady (h : Nat) (payload : String) : PtyEffect
  | handleReplay (h : Nat) (payload : String) : PtyEffect
  | handleOrphanQuestion (h : Nat) : PtyEffect
deriving DecidableEq

/-- The handle an effect is addressed to. -/
def effHandle : PtyEffect → Nat
  | PtyEffect.handleData h _ => h
  | PtyEffect.handleDidChangeProperty h _ => h
  | PtyEffect.handleExit h _ => h
  | PtyEffect.handleReady h _ => h
  | PtyEffect.handleReplay h _ => h
  | PtyEffect.handleOrphanQuestion h => h

/-- The session registry: the _ptys map as an association list from session id
to handle, plus the ordered list of handle calls made so far. -/
structure RegistryState where
  ptys : List (Nat × Nat)
  effects : List PtyEffect
deriving DecidableEq

/-- Map.get on the _ptys association list. -/
def findHandle (ptys : List (Nat × Nat)) (id : Nat) : Option Nat :=
  match ptys with
  | [] => none
  | p :: rest => if p.1 = id then some p.2 else findHandle rest id

/-- The event listeners attached in the LocalTerminalBackend constructor: each
event dispatches to the handle found for its id, and is dropped when the id is
unknown; the exit listener first notifies the handle, then deletes the id from
the map. -/
def dispatch (s : RegistryState) (e : PtyEvent) : RegistryState :=
  match e with
  | PtyEvent.data id payload =>
      match findHandle s.ptys id with
      | some h => { s with effects := s.effects ++ [PtyEffect.handleData h payload] }
      | none => s
  | PtyEvent.propertyChange id property =>
      match findHandle s.ptys id with
      | some h =>
          { s with effects := s.effects ++ [PtyEffect.handleDidChangeProperty h property] }
      | none => s
  | PtyEvent.exit id code =>
      match findHandle s.ptys id with
      | some h =>
          { ptys := s.ptys.filter fun p => p.1 != id
            effects := s.effects ++ [PtyEffect.handleExit h code] }
      | none => s
  | PtyEvent.ready id payload =>
      match findHandle s.ptys id with
      | some h => { s with effects := s.effects ++ [PtyEffect.handleReady h payload] }
      | none => s
  | PtyEvent.replay id payload =>
      match findHandle s.ptys id with
      | some h => { s with effects := s.effects ++ [PtyEffect.handleReplay h payload] }
      | none => s
  | PtyEvent.orphanQuestion id =>
      match findHandle s.ptys id with
      | some h => { s with effects := s.effects ++ [PtyEffect.handleOrphanQuestion h] }
      | none => s

/-- Run the registry listeners over a sequence of remote events. -/
def runRegistry (s : RegistryState) (es : List PtyEvent) : RegistryState :=
  es.foldl dispatch s

/-- Sample ambient inputs used by the concrete witnesses. -/
def sampleBenv : BackendEnv :=
  { lastActiveWorkspaceRoot := some "ws-root"
    profileEnv := [("PROFILE", "1")]
    configEnvForPlatform := some [("CFG", "1")]
    shellEnv := [("SHELLVAR", "1")]
    processEnv := [("PROCVAR", "1")]
    productVersion := "1.0.0"
    detectLocale := false
    locale := "en-US"
    reviveThrows := false
    hostLayoutResult := some [1, 2] }

/-- Claim C2: a persisted blob parsed to an object that is missing the
version field, or missing the state field, or whose state is not an array, or
whose version differs from 1 makes revival a no-op: reviveTerminalProcesses
is never called, exactly one warning is logged, and the blob stays in
storage. No exception escapes: the embedding is a total function and the one
operation that can throw on this path, the in operator, is covered by the
nonObject case. -/
theorem c2_invalid_blob_revival_noop (benv : BackendEnv) (store : Store)
    (hasVersion : Bool) (version : JLit) (hasState : Bool) (stateIsArray : Bool)
    (entries : List SerializedTerminalState)
    (hblob : store.terminalBufferState
      = some (ParsedBlob.object hasVersion version hasState stateIsArray entries))
    (hbad : hasVersion = false ∨ hasState = false ∨ stateIsArray = false
      ∨ version ≠ JLit.jnum 1) :
    (∀ es l, Eff.reviveCall es l ∉ (getTerminalLayoutInfo benv store).trace)
    ∧ ((getTerminalLayoutInfo benv store).trace = [Eff.warnWrongFormat]
        ∨ (getTerminalLayoutInfo benv store).trace = [Eff.warnWrongVersion version])
    ∧ (getTerminalLayoutInfo benv store).store = store := by
  by_cases hfmt : (!hasVersion || !hasState || !stateIsArray) = true
  · have hres : getTerminalLayoutInfo benv store
        = { trace := [Eff.warnWrongFormat], store := store, result := none } := by
      simp only [getTerminalLayoutInfo]
      rw [hblob]
      simp [hfmt]
    rw [hres]
    refine ⟨?_, Or.inl rfl, rfl⟩
    intro es l hmem
    simp at hmem
  · have hver : version ≠ JLit.jnum 1 := by
      rcases hbad with h | h | h | h
      · subst h; simp at hfmt
      · subst h; simp at hfmt
      · subst h; simp at hfmt
      · exact h
    have hres : getTerminalLayoutInfo benv store
        = { trace := [Eff.warnWrongVersion version], store := store, result := none } := by
      simp only [getTerminalLayoutInfo]
      rw [hblob]
      simp only [Bool.not_eq_true] at hfmt
      simp [hfmt, hver]
    rw [hres]
    refine ⟨?_, Or.inr rfl, rfl⟩
    intro es l hmem
    simp at hmem

theorem c2_invalid_blob_revival_noop_witness :
    (getTerminalLayoutInfo sampleBenv
        { terminalBufferState := some (ParsedBlob.object true (JLit.jnum 2) true true [])
          terminalLayoutInfo := none }).store
      = { terminalBufferState := some (ParsedBlob.object true (JLit.jnum 2) true true [])
          terminalLayoutInfo := none } := by
  have h := c2_invalid_blob_revival_noop sampleBenv
    { terminalBufferState := some (ParsedBlob.object true (JLit.jnum 2) true true [])
      terminalLayoutInfo := none }
    true (JLit.jnum 2) true true [] rfl (Or.inr (Or.inr (Or.inr (by decide))))
  exact h.2.2

/-- Claim C10: when the stored blob exists but fails schema validation,
getTerminalLayoutInfo returns undefined at once and never reaches the remote
getTerminalLayoutInfo query. -/
theorem c10_invalid_blob_skips_host_query (benv : BackendEnv) (store : Store)
    (hasVersion : Bool) (version : JLit) (hasState : Bool) (stateIsArray : Bool)
    (entries : List SerializedTerminalState)
    (hblob : store.terminalBufferState
      = some (ParsedBlob.object hasVersion version hasState stateIsArray entries))
    (hbad : hasVersion = false ∨ hasState = false ∨ stateIsArray = false
      ∨ version ≠ JLit.jnum 1) :
    (getTerminalLayoutInfo benv store).result = none
    ∧ Eff.queryHostLayout ∉ (getTerminalLayoutInfo benv store).trace := by
  by_cases hfmt : (!hasVersion || !hasState || !stateIsArray) = true
  · have hres : getTerminalLayoutInfo benv store
        = { trace := [Eff.warnWrongFormat], store := store, result := none } := by
      simp only [getTerminalLayoutInfo]
      rw [hblob]
      simp [hfmt]
    rw [hres]
    exact ⟨rfl, by simp⟩
  · have hver : version ≠ JLit.jnum 1 := by
      rcases hbad with h | h | h | h
      · subst h; simp at hfmt
      · subst h; simp at hfmt
      · subst h; simp at hfmt
      · exact h
    have hres : getTerminalLayoutInfo benv store
        = { trace := [Eff.warnWrongVersion version], store := store, result := none } := by
      simp only [getTerminalLayoutInfo]
      rw [hblob]
      simp only [Bool.not_eq_true] at hfmt
      simp [hfmt, hver]
    rw [hres]
    exact ⟨rfl, by simp⟩

theorem c10_invalid_blob_skips_host_query_witness :
    (getTerminalLayoutInfo sampleBenv
        { terminalBufferState := some (ParsedBlob.object true (JLit.jnum 1) false false [])
          terminalLayoutInfo := none }).result = none := by
  have h := c10_invalid_blob_skips_host_query sampleBenv
    { terminalBufferState := some (ParsedBlob.object true (JLit.jnum 1) false false [])
      terminalLayoutInfo := none }
    true (JLit.jnum 1) false false [] rfl (Or.inr (Or.inl rfl))
  exact h.1

/-- Sample persisted entry used by the concrete witnesses: a captured
environment snapshot and a launch config requesting neither strict nor hidden
environment handling. -/
def sampleEntry : SerializedTerminalState :=
  { shellLaunchConfig :=
      { useShellEnvironment := false, strictEnv := false, hideFromUser := false }
    env := EnvVal.snapshot [("OLD", "1")] }

theorem resolveEnvironmentForRevive_fields (benv : BackendEnv)
    (r : Option VariableResolver) (slc : ShellLaunchConfig) :
    (resolveEnvironmentForRevive benv r slc).shellLaunchConfig = slc
    ∧ (resolveEnvironmentForRevive benv r slc).resolver = r
    ∧ (resolveEnvironmentForRevive benv r slc).configOverrides = benv.configEnvForPlatform
    ∧ (resolveEnvironmentForRevive benv r slc).baseEnv
        = (if slc.useShellEnvironment then benv.shellEnv else benv.processEnv)
    ∧ (resolveEnvironmentForRevive benv r slc).mergedCollectionApplied
        = (!slc.strictEnv && !slc.hideFromUser) := by
  by_cases hc : (!slc.strictEnv && !slc.hideFromUser) = true
  · simp [resolveEnvironmentForRevive, createTerminalEnvironment,
      applyToProcessEnvironment, hc]
  · have hc2 : (!slc.strictEnv && !slc.hideFromUser) = false := by
      revert hc
      cases (!slc.strictEnv && !slc.hideFromUser) <;> simp
    simp [resolveEnvironmentForRevive, createTerminalEnvironment,
      applyToProcessEnvironment, hc2]

/-- Claim C5: for a valid version-1 blob, reviveTerminalProcesses receives
the re-resolved entries; every entry passed carries a freshly composed
environment whose resolver was built from the last active workspace root and
the terminal-profile environment, whose overrides are the platform-specific
configuration value, whose base comes from the shell or process environment
as selected by useShellEnvironment, and on which the merged
environment-variable collection was applied exactly when the launch config
set neither strictEnv nor hideFromUser; no entry carries the captured
snapshot. -/
theorem c5_revive_env_resolution (benv : BackendEnv) (store : Store)
    (entries : List SerializedTerminalState)
    (hblob : store.terminalBufferState
      = some (ParsedBlob.object true (JLit.jnum 1) true true entries)) :
    Eff.reviveCall (reviveEntries benv entries) benv.locale
      ∈ (getTerminalLayoutInfo benv store).trace
    ∧ ∀ st ∈ reviveEntries benv entries,
        ∃ c, st.env = EnvVal.fresh c
          ∧ c.shellLaunchConfig = st.shellLaunchConfig
          ∧ c.resolver
              = some (createVariableResolver benv.lastActiveWorkspaceRoot benv.profileEnv)
          ∧ c.configOverrides = benv.configEnvForPlatform
          ∧ c.baseEnv = (if st.shellLaunchConfig.useShellEnvironment then benv.shellEnv
              else benv.processEnv)
          ∧ c.mergedCollectionApplied
              = (!st.shellLaunchConfig.strictEnv && !st.shellLaunchConfig.hideFromUser)
          ∧ ∀ e, st.env ≠ EnvVal.snapshot e := by
  constructor
  · simp only [getTerminalLayoutInfo]
    rw [hblob]
    by_cases hthrow : benv.reviveThrows = true
    · simp [hthrow]
    · simp only [Bool.not_eq_true] at hthrow
      cases hlay : store.terminalLayoutInfo with
      | none => simp [hthrow, hlay]
      | some lb => simp [hthrow, hlay]
  · intro st hst
    simp only [reviveEntries, List.mem_map] at hst
    obtain ⟨orig, horig, rfl⟩ := hst
    obtain ⟨h1, h2, h3, h4, h5⟩ := resolveEnvironmentForRevive_fields benv
      (some (createVariableResolver benv.lastActiveWorkspaceRoot benv.profileEnv))
      orig.shellLaunchConfig
    exact ⟨resolveEnvironmentForRevive benv
      (some (createVariableResolver benv.lastActiveWorkspaceRoot benv.profileEnv))
      orig.shellLaunchConfig, rfl, h1, h2, h3, h4, h5, fun e => by simp⟩

theorem c5_revive_env_resolution_witness :
    Eff.reviveCall (reviveEntries sampleBenv [sampleEntry]) sampleBenv.locale
      ∈ (getTerminalLayoutInfo sampleBenv
          { terminalBufferState :=
              some (ParsedBlob.object true (JLit.jnum 1) true true [sampleEntry])
            terminalLayoutInfo := none }).trace :=
  (c5_revive_env_resolution sampleBenv
    { terminalBufferState :=
        some (ParsedBlob.object true (JLit.jnum 1) true true [sampleEntry])
      terminalLayoutInfo := none } [sampleEntry] rfl).1

/-- Claim C6: when revival succeeds (reviveTerminalProcesses does not reject)
the buffer blob is removed from storage, and when a pending layout blob
exists it is first reapplied to the host through setTerminalLayoutInfo and
then removed, in that order, as the effect trace shows. -/
theorem c6_successful_revival_oneshot (benv : BackendEnv) (store : Store)
    (entries : List SerializedTerminalState)
    (hblob : store.terminalBufferState
      = some (ParsedBlob.object true (JLit.jnum 1) true true entries))
    (hok : benv.reviveThrows = false) :
    (getTerminalLayoutInfo benv store).store.terminalBufferState = none
    ∧ (store.terminalLayoutInfo = none →
        (getTerminalLayoutInfo benv store).trace
          = [Eff.reviveCall (reviveEntries benv entries) benv.locale,
             Eff.removeBufferState, Eff.queryHostLayout])
    ∧ ∀ lb, store.terminalLayoutInfo = some lb →
        (getTerminalLayoutInfo benv store).trace
          = [Eff.reviveCall (reviveEntries benv entries) benv.locale,
             Eff.removeBufferState, Eff.setLayoutOnHost lb, Eff.removeLayoutInfo,
             Eff.queryHostLayout]
        ∧ (getTerminalLayoutInfo benv store).store.terminalLayoutInfo = none := by
  cases hlay : store.terminalLayoutInfo with
  | none =>
      have hres : getTerminalLayoutInfo benv store
          = { trace := [Eff.reviveCall (reviveEntries benv entries) benv.locale,
                Eff.removeBufferState, Eff.queryHostLayout]
              store := { terminalBufferState := none, terminalLayoutInfo := none }
              result := benv.hostLayoutResult } := by
        simp only [getTerminalLayoutInfo]
        rw [hblob]
        simp [hok, hlay]
      rw [hres]
      refine ⟨rfl, fun _ => rfl, ?_⟩
      intro lb hlb
      cases hlb
  | some lb0 =>
      have hres : getTerminalLayoutInfo benv store
          = { trace := [Eff.reviveCall (reviveEntries benv entries) benv.locale,
                Eff.removeBufferState, Eff.setLayoutOnHost lb0, Eff.removeLayoutInfo,
                Eff.queryHostLayout]
              store := { terminalBufferState := none, terminalLayoutInfo := none }
              result := benv.hostLayoutResult } := by
        simp only [getTerminalLayoutInfo]
        rw [hblob]
        simp [hok, hlay]
      rw [hres]
      refine ⟨rfl, ?_, ?_⟩
      · intro hnone
        cases hnone
      · intro lb hlb
        injection hlb with h
        subst h
        exact ⟨rfl, rfl⟩

/-- Sample layout blob used by the concrete witnesses. -/
def sampleLayout : LayoutBlob := { workspaceId := "ws-1", tabs := [3] }

theorem c6_successful_revival_oneshot_witness :
    (getTerminalLayoutInfo sampleBenv
        { terminalBufferState :=
            some (ParsedBlob.object true (JLit.jnum 1) true true [sampleEntry])
          terminalLayoutInfo := some sampleLayout }).store.terminalBufferState = none :=
  (c6_successful_revival_oneshot sampleBenv
    { terminalBufferState :=
        some (ParsedBlob.object true (JLit.jnum 1) true true [sampleEntry])
      terminalLayoutInfo := some sampleLayout } [sampleEntry] rfl rfl).1

/-- Claim C7: a Responsive signal while already responsive is a no-op (no
log, no notification dismissal, no event), stepping twice equals stepping
once, and a Responsive signal while unresponsive clears the flag, dismisses
the warning notification, logs, and fires the responsive event. -/
theorem c7_responsive_idempotent (s : HealthState) :
    (s.isPtyHostUnresponsive = false → healthStep s HostSignal.responsive = s)
    ∧ (s.isPtyHostUnresponsive = true →
        (healthStep s HostSignal.responsive).isPtyHostUnresponsive = false
        ∧ (healthStep s HostSignal.responsive).notificationOpen = false
        ∧ (healthStep s HostSignal.responsive).responsiveFired = s.responsiveFired + 1
        ∧ (healthStep s HostSignal.responsive).infoLogs
            = s.infoLogs ++ ["The pty host became responsive again"])
    ∧ healthStep (healthStep s HostSignal.responsive) HostSignal.responsive
        = healthStep s HostSignal.responsive := by
  refine ⟨?_, ?_, ?_⟩
  · intro hflag
    simp [healthStep, hflag]
  · intro hflag
    refine ⟨?_, ?_, ?_, ?_⟩ <;> simp [healthStep, hflag]
  · by_cases hflag : s.isPtyHostUnresponsive = true
    · simp [healthStep, hflag]
    · simp only [Bool.not_eq_true] at hflag
      simp [healthStep, hflag]

/-- Sample unresponsive health state used by the concrete witness. -/
def sampleUnresponsive : HealthState :=
  { isPtyHostUnresponsive := true
    notificationOpen := true
    closedCount := 0
    infoLogs := []
    responsiveFired := 0
    unresponsiveFired := 1
    restartFired := 0 }

theorem c7_responsive_idempotent_witness :
    (healthStep sampleUnresponsive HostSignal.responsive).notificationOpen = false
    ∧ healthStep (healthStep sampleUnresponsive HostSignal.responsive)
        HostSignal.responsive
      = healthStep sampleUnresponsive HostSignal.responsive :=
  ⟨((c7_responsive_idempotent sampleUnresponsive).2.1 rfl).2.1,
   (c7_responsive_idempotent sampleUnresponsive).2.2⟩

/-- Claim C8: acceptDetachInstanceReply with persistentProcessId undefined
logs the warning, does not call the remote acceptDetachInstanceReply, and
returns normally (the embedding is a total function). -/
theorem c8_detach_reply_guard (requestId : Nat) :
    acceptDetachInstanceReply requestId none
      = { warnLogged := true, hostCall := none } := rfl

theorem findHandle_mem (ptys : List (Nat × Nat)) (id h : Nat)
    (hf : findHandle ptys id = some h) : (id, h) ∈ ptys := by
  induction ptys with
  | nil => simp [findHandle] at hf
  | cons p rest ih =>
      rw [findHandle] at hf
      by_cases hp : p.1 = id
      · rw [if_pos hp] at hf
        injection hf with hval
        have hpair : p = (id, h) := by
          cases p with
          | mk a b =>
              simp only at hp hval
              rw [hp, hval]
        rw [hpair]
        exact List.mem_cons_self _ _
      · rw [if_neg hp] at hf
        exact List.mem_cons_of_mem _ (ih hf)

theorem findHandle_filter_self (ptys : List (Nat × Nat)) (id : Nat) :
    findHandle (ptys.filter fun p => p.1 != id) id = none := by
  induction ptys with
  | nil => rfl
  | cons p rest ih =>
      by_cases hp : p.1 = id
      · have : (p.1 != id) = false := by simp [hp]
        simp [List.filter_cons, this, ih]
      · have hne : (p.1 != id) = true := by simp [hp]
        simp only [List.filter_cons, hne, if_true]
        rw [findHandle, if_neg hp]
        exact ih

theorem dispatch_ptys_subset (s : RegistryState) (e : PtyEvent) (p : Nat × Nat)
    (hp : p ∈ (dispatch s e).ptys) : p ∈ s.ptys := by
  cases e with
  | data id payload =>
      cases hfh : findHandle s.ptys id <;> simp_all [dispatch]
  | propertyChange id property =>
      cases hfh : findHandle s.ptys id <;> simp_all [dispatch]
  | exit id code =>
      cases hfh : findHandle s.ptys id with
      | none => simp_all [dispatch]
      | some h =>
          simp only [dispatch, hfh] at hp
          exact List.mem_of_mem_filter hp
  | ready id payload =>
      cases hfh : findHandle s.ptys id <;> simp_all [dispatch]
  | replay id payload =>
      cases hfh : findHandle s.ptys id <;> simp_all [dispatch]
  | orphanQuestion id =>
      cases hfh : findHandle s.ptys id <;> simp_all [dispatch]

theorem dispatch_effects (s : RegistryState) (e : PtyEvent) :
    ∃ tail, (dispatch s e).effects = s.effects ++ tail
      ∧ ∀ f ∈ tail, ∃ p, p ∈ s.ptys ∧ effHandle f = p.2 := by
  cases e with
  | data id payload =>
      cases hfh : findHandle s.ptys id with
      | none => exact ⟨[], by simp [dispatch, hfh], by simp⟩
      | some h =>
          refine ⟨[PtyEffect.handleData h payload], by simp [dispatch, hfh], ?_⟩
          intro f hf
          rw [List.mem_singleton] at hf
          subst hf
          exact ⟨(id, h), findHandle_mem _ _ _ hfh, rfl⟩
  | propertyChange id property =>
      cases hfh : findHandle s.ptys id with
      | none => exact ⟨[], by simp [dispatch, hfh], by simp⟩
      | some h =>
          refine ⟨[PtyEffect.handleDidChangeProperty h property], by simp [dispatch, hfh], ?_⟩
          intro f hf
          rw [List.mem_singleton] at hf
          subst hf
          exact ⟨(id, h), findHandle_mem _ _ _ hfh, rfl⟩
  | exit id code =>
      cases hfh : findHandle s.ptys id with
      | none => exact ⟨[], by simp [dispatch, hfh], by simp⟩
      | some h =>
          refine ⟨[PtyEffect.handleExit h code], by simp [dispatch, hfh], ?_⟩
          intro f hf
          rw [List.mem_singleton] at hf
          subst hf
          exact ⟨(id, h), findHandle_mem _ _ _ hfh, rfl⟩
  | ready id payload =>
      cases hfh : findHandle s.ptys id with
      | none => exact ⟨[], by simp [dispatch, hfh], by simp⟩
      | some h =>
          refine ⟨[PtyEffect.handleReady h payload], by simp [dispatch, hfh], ?_⟩
          intro f hf
          rw [List.mem_singleton] at hf
          subst hf
          exact ⟨(id, h), findHandle_mem _ _ _ hfh, rfl⟩
  | replay id payload =>
      cases hfh : findHandle s.ptys id with
      | none => exact ⟨[], by simp [dispatch, hfh], by simp⟩
      | some h =>
          refine ⟨[PtyEffect.handleReplay h payload], by simp [dispatch, hfh], ?_⟩
          intro f hf
          rw [List.mem_singleton] at hf
          subst hf
          exact ⟨(id, h), findHandle_mem _ _ _ hfh, rfl⟩
  | orphanQuestion id =>
      cases hfh : findHandle s.ptys id with
      | none => exact ⟨[], by simp [dispatch, hfh], by simp⟩
      | some h =>
          refine ⟨[PtyEffect.handleOrphanQuestion h], by simp [dispatch, hfh], ?_⟩
          intro f hf
          rw [List.mem_singleton] at hf
          subst hf
          exact ⟨(id, h), findHandle_mem _ _ _ hfh, rfl⟩

theorem runRegistry_avoids (h : Nat) (evs : List PtyEvent) (s : RegistryState)
    (hno : ∀ p ∈ s.ptys, p.2 ≠ h) :
    ∀ f ∈ (runRegistry s evs).effects, f ∈ s.effects ∨ effHandle f ≠ h := by
  induction evs generalizing s with
  | nil => exact fun f hf => Or.inl hf
  | cons e rest ih =>
      intro f hf
      have hno2 : ∀ p ∈ (dispatch s e).ptys, p.2 ≠ h :=
        fun p hp => hno p (dispatch_ptys_subset s e p hp)
      have hstep : runRegistry s (e :: rest) = runRegistry (dispatch s e) rest := by
        simp [runRegistry]
      rw [hstep] at hf
      rcases ih (dispatch s e) hno2 f hf with hmem | hne
      · obtain ⟨tail, htail, hall⟩ := dispatch_effects s e
        rw [htail] at hmem
        rcases List.mem_append.mp hmem with h1 | h2
        · exact Or.inl h1
        · obtain ⟨p, hp, hph⟩ := hall f h2
          exact Or.inr (hph ▸ hno p hp)
      · exact Or.inr hne

/-- Claim C9: an event whose id is registered is dispatched to the matching
handle (each of the six event kinds); events whose id is not in the map leave
the registry unchanged (silently dropped); an exit event for a registered id
first notifies the handle of the exit and then removes the id from the map;
and, provided the handle is registered under that id only, no event processed
after the exit ever produces a call on that handle again. -/
theorem c9_registry_dispatch (s : RegistryState) (id h code : Nat)
    (hreg : findHandle s.ptys id = some h)
    (huniq : ∀ p ∈ s.ptys, p.2 = h → p.1 = id) :
    (∀ payload, dispatch s (PtyEvent.data id payload)
        = { s with effects := s.effects ++ [PtyEffect.handleData h payload] })
    ∧ (∀ property, dispatch s (PtyEvent.propertyChange id property)
        = { s with effects := s.effects ++ [PtyEffect.handleDidChangeProperty h property] })
    ∧ (∀ payload, dispatch s (PtyEvent.ready id payload)
        = { s with effects := s.effects ++ [PtyEffect.handleReady h payload] })
    ∧ (∀ payload, dispatch s (PtyEvent.replay id payload)
        = { s with effects := s.effects ++ [PtyEffect.handleReplay h payload] })
    ∧ (dispatch s (PtyEvent.orphanQuestion id)
        = { s with effects := s.effects ++ [PtyEffect.handleOrphanQuestion h] })
    ∧ (∀ e, findHandle s.ptys (eventId e) = none → dispatch s e = s)
    ∧ ((dispatch s (PtyEvent.exit id code)).effects
          = s.effects ++ [PtyEffect.handleExit h code]
        ∧ findHandle (dispatch s (PtyEvent.exit id code)).ptys id = none)
    ∧ (∀ evs, ∀ f ∈ (runRegistry (dispatch s (PtyEvent.exit id code)) evs).effects,
        f ∈ s.effects ++ [PtyEffect.handleExit h code] ∨ effHandle f ≠ h) := by
  have hexit : dispatch s (PtyEvent.exit id code)
      = { ptys := s.ptys.filter fun p => p.1 != id
          effects := s.effects ++ [PtyEffect.handleExit h code] } := by
    simp [dispatch, hreg]
  refine ⟨?_, ?_, ?_, ?_, ?_, ?_, ?_, ?_⟩
  · intro payload
    simp [dispatch, hreg]
  · intro property
    simp [dispatch, hreg]
  · intro payload
    simp [dispatch, hreg]
  · intro payload
    simp [dispatch, hreg]
  · simp [dispatch, hreg]
  · intro e hnone
    cases e <;> simp_all [dispatch, eventId]
  · constructor
    · rw [hexit]
    · rw [hexit]
      exact findHandle_filter_self s.ptys id
  · intro evs f hf
    have hno : ∀ p ∈ (dispatch s (PtyEvent.exit id code)).ptys, p.2 ≠ h := by
      rw [hexit]
      intro p hp
      simp only [List.mem_filter] at hp
      intro hph
      have := huniq p hp.1 hph
      rw [this] at hp
      simp at hp
    have := runRegistry_avoids h evs (dispatch s (PtyEvent.exit id code)) hno f hf
    rcases this with hmem | hne
    · rw [hexit] at hmem
      exact Or.inl hmem
    · exact Or.inr hne

/-- Sample registry state used by the concrete witness: session id 1 bound to
handle 10. -/
def sampleRegistry : RegistryState := { ptys := [(1, 10)], effects := [] }

theorem c9_registry_dispatch_witness :
    dispatch sampleRegistry (PtyEvent.data 1 "x")
      = { sampleRegistry with
          effects := sampleRegistry.effects ++ [PtyEffect.handleData 10 "x"] } :=
  (c9_registry_dispatch sampleRegistry 1 10 0 rfl (by decide)).1 "x"
